import Mathlib

/-!
Shallow embedding of the GM ticket registry of `src/src/game/GMTicketMgr.h`
(mangos-zero).  `ObjectGuid` is an order- and equality-comparable player
identifier whose default-constructed value is the distinguished "empty" guid
that converts to `false`; we model it as `Nat`, with `0` as the empty guid.
`time_t` timestamps are modelled as `Nat`.  `std::map<ObjectGuid, GMTicket>`
is modelled as an association list with unique keys, and the creation-order
index `std::list<GMTicket*>` — whose pointers address the stable map slots,
one slot per guid — is modelled as a list of guids: two pointers are equal
exactly when they address the slot of the same guid.
-/

set_option autoImplicit false

namespace GMTicketSpec

/-- One GM ticket: guid of the owning player, question text, response text
and the time of last update (`class GMTicket`, GMTicketMgr.h lines 87-182). -/
structure GMTicket where
  m_guid : Nat
  m_text : String
  m_responseText : String
  m_lastUpdate : Nat
  deriving Repr, DecidableEq

/-- The default-constructed ticket: `explicit GMTicket() : m_lastUpdate(0)`;
the guid is the default-constructed empty guid and both strings are empty. -/
def GMTicket.empty : GMTicket :=
  { m_guid := 0, m_text := "", m_responseText := "", m_lastUpdate := 0 }

/-- Modelled from the spec: the body of `GMTicket::Init` lives in
GMTicketMgr.cpp, which is not under src/.  The spec says initialization
"is idempotent and acts as a full reset of all four fields" with the
given arguments (spec section 4.1). -/
def GMTicket.Init (_self : GMTicket) (guid : Nat) (text : String)
    (responsetext : String) (update : Nat) : GMTicket :=
  { m_guid := guid, m_text := text, m_responseText := responsetext,
    m_lastUpdate := update }

/-- `bool HasResponse() { return !m_responseText.empty(); }`
(GMTicketMgr.h line 141). -/
def GMTicket.HasResponse (t : GMTicket) : Bool :=
  !t.m_responseText.isEmpty

/-- The by-owner index `GMTicketMap = std::map<ObjectGuid, GMTicket>`:
an association list whose keys are unique in every reachable state. -/
def GMTicketMap := List (Nat × GMTicket)

/-- `std::map::find`: the value stored under a key, if any. -/
def mapFind : List (Nat × GMTicket) → Nat → Option GMTicket
  | [], _ => none
  | (k, v) :: rest, g => if k = g then some v else mapFind rest g

/-- Writing a value through the reference `m_GMTicketMap[guid]`: the entry is
updated in place when the key is present, and default-inserted (then
immediately overwritten by the caller) when absent, which nets to appending
the new entry. -/
def mapStore : List (Nat × GMTicket) → Nat → GMTicket → List (Nat × GMTicket)
  | [], g, t => [(g, t)]
  | (k, v) :: rest, g, t =>
      if k = g then (g, t) :: rest else (k, v) :: mapStore rest g t

/-- `std::map::erase(iterator)`: removes the (unique) entry with this key. -/
def mapErase : List (Nat × GMTicket) → Nat → List (Nat × GMTicket)
  | [], _ => []
  | (k, v) :: rest, g => if k = g then rest else (k, v) :: mapErase rest g

/-- The ticket registry `class GMTicketMgr` (GMTicketMgr.h lines 186-265):
the global accept flag, the by-owner map and the creation-order list. -/
structure GMTicketMgr where
  m_TicketSystemOn : Bool
  m_GMTicketMap : List (Nat × GMTicket)
  m_GMTicketListByCreatingOrder : List Nat

/-- The freshly constructed registry: `GMTicketMgr() : m_TicketSystemOn(true)`
with both containers default-constructed empty. -/
def GMTicketMgr.fresh : GMTicketMgr :=
  { m_TicketSystemOn := true, m_GMTicketMap := [],
    m_GMTicketListByCreatingOrder := [] }

/-- `GMTicket* GetGMTicket(ObjectGuid guid)` (lines 196-202): `find` in the
map, `NULL` when absent, else a handle to the stored ticket. -/
def GMTicketMgr.GetGMTicket (m : GMTicketMgr) (guid : Nat) : Option GMTicket :=
  mapFind m.m_GMTicketMap guid

/-- `size_t GetTicketCount() const { return m_GMTicketMap.size(); }`
(lines 204-207). -/
def GMTicketMgr.GetTicketCount (m : GMTicketMgr) : Nat :=
  m.m_GMTicketMap.length

/-- `GMTicket* GetGMTicketByOrderPos(uint32 pos)` (lines 209-219): `NULL`
when `pos >= GetTicketCount()`; otherwise advance `pos` steps into the
creation-order list, `NULL` at the end iterator, else the ticket the stored
pointer addresses (the map slot of the stored guid). -/
def GMTicketMgr.GetGMTicketByOrderPos (m : GMTicketMgr) (pos : Nat) :
    Option GMTicket :=
  if pos ≥ m.GetTicketCount then none
  else
    match m.m_GMTicketListByCreatingOrder.get? pos with
    | none => none
    | some g => m.GetGMTicket g

/-- `void Delete(ObjectGuid guid)` (lines 222-230): no-op when absent, else
delete the row from the DB (a pure store effect, not modelled), remove the
slot's pointer from the creation-order list (`std::list::remove` erases every
element equal to the pointer) and erase the map entry. -/
def GMTicketMgr.Delete (m : GMTicketMgr) (guid : Nat) : GMTicketMgr :=
  match mapFind m.m_GMTicketMap guid with
  | none => m
  | some _ =>
      { m with
        m_GMTicketListByCreatingOrder :=
          m.m_GMTicketListByCreatingOrder.filter (fun g => g ≠ guid),
        m_GMTicketMap := mapErase m.m_GMTicketMap guid }

/-- `void Create(ObjectGuid guid, const char* text)` (lines 234-246):
`m_GMTicketMap[guid]` yields the existing slot or a default-constructed one;
when the stored guid is non-empty (`if (ticket.GetPlayerGuid())`) the old
row is deleted from the DB and the slot's pointer removed from the
creation-order list; then the slot is re-initialized with
`(guid, text, "", time(NULL))`, saved, and its pointer appended to the tail.
`time(NULL)` is passed in as the parameter `now`. -/
def GMTicketMgr.Create (m : GMTicketMgr) (guid : Nat) (text : String)
    (now : Nat) : GMTicketMgr :=
  let ticket := (mapFind m.m_GMTicketMap guid).getD GMTicket.empty
  let order1 :=
    if ticket.m_guid ≠ 0 then
      m.m_GMTicketListByCreatingOrder.filter (fun g => g ≠ guid)
    else m.m_GMTicketListByCreatingOrder
  let ticket2 := ticket.Init guid text "" now
  { m with
    m_GMTicketMap := mapStore m.m_GMTicketMap guid ticket2,
    m_GMTicketListByCreatingOrder := order1 ++ [guid] }

/-- `void SetAcceptTickets(bool accept) { m_TicketSystemOn = accept; }`
(line 254). -/
def GMTicketMgr.SetAcceptTickets (m : GMTicketMgr) (accept : Bool) :
    GMTicketMgr :=
  { m with m_TicketSystemOn := accept }

/-- `bool WillAcceptTickets() { return m_TicketSystemOn; }` (line 260). -/
def GMTicketMgr.WillAcceptTickets (m : GMTicketMgr) : Bool :=
  m.m_TicketSystemOn

/-- An operation on the registry issued by the command layer: a create
(with the wall-clock second `time(NULL)` returned at that call) or a
delete. -/
inductive TicketOp where
  | create (owner : Nat) (text : String) (now : Nat) : TicketOp
  | delete (owner : Nat) : TicketOp

/-- Apply one operation to the registry. -/
def applyOp (m : GMTicketMgr) : TicketOp → GMTicketMgr
  | TicketOp.create owner text now => m.Create owner text now
  | TicketOp.delete owner => m.Delete owner

/-- Run a sequence of operations on the freshly constructed registry. -/
def applyOps (ops : List TicketOp) : GMTicketMgr :=
  ops.foldl applyOp GMTicketMgr.fresh

/-- An operation is valid when a create carries a non-empty owner (the
session layer only files tickets for real players). -/
def validOp : TicketOp → Prop
  | TicketOp.create owner _ _ => owner ≠ 0
  | TicketOp.delete _ => True

/-- Well-formedness of a registry state, as maintained by the code for
valid operations: map keys are unique and non-empty, each stored ticket
records its key as its own guid, the creation-order list is duplicate-free
and holds exactly the map keys, and the two indexes have equal size. -/
def Inv (m : GMTicketMgr) : Prop :=
  (m.m_GMTicketMap.map Prod.fst).Nodup ∧
  m.m_GMTicketListByCreatingOrder.Nodup ∧
  (∀ g, g ∈ m.m_GMTicketListByCreatingOrder ↔
    ∃ t, mapFind m.m_GMTicketMap g = some t) ∧
  (∀ g t, mapFind m.m_GMTicketMap g = some t → t.m_guid = g ∧ g ≠ 0) ∧
  m.m_GMTicketListByCreatingOrder.length = m.m_GMTicketMap.length

@[simp]
theorem mapFind_nil (g : Nat) : mapFind [] g = none := rfl

@[simp]
theorem mapFind_cons (k : Nat) (v : GMTicket) (rest : List (Nat × GMTicket))
    (g : Nat) :
    mapFind ((k, v) :: rest) g = if k = g then some v else mapFind rest g :=
  rfl

theorem mapFind_eq_none_iff (M : List (Nat × GMTicket)) (g : Nat) :
    mapFind M g = none ↔ g ∉ M.map Prod.fst := by
  induction M with
  | nil => simp
  | cons p rest ih =>
    obtain ⟨k, v⟩ := p
    by_cases h : k = g
    · subst h; simp
    · have h2 : g ≠ k := fun hh => h hh.symm
      simp [h, h2, ih]

theorem exists_mapFind_iff (M : List (Nat × GMTicket)) (g : Nat) :
    (∃ t, mapFind M g = some t) ↔ g ∈ M.map Prod.fst := by
  rw [← Option.ne_none_iff_exists']
  constructor
  · intro h
    by_contra hmem
    exact h ((mapFind_eq_none_iff M g).mpr hmem)
  · intro h hn
    exact (mapFind_eq_none_iff M g).mp hn h

theorem mapFind_mapStore (M : List (Nat × GMTicket)) (k : Nat) (v : GMTicket)
    (g : Nat) :
    mapFind (mapStore M k v) g = if k = g then some v else mapFind M g := by
  induction M with
  | nil => simp [mapStore]
  | cons p rest ih =>
    obtain ⟨k0, v0⟩ := p
    by_cases h0 : k0 = k
    · subst h0
      by_cases hg : k0 = g
      · subst hg; simp [mapStore]
      · simp [mapStore, hg]
    · by_cases hg : k0 = g
      · subst hg
        have hk : k ≠ k0 := fun hh => h0 hh.symm
        simp [mapStore, h0, hk]
      · simp [mapStore, h0, hg, ih]

theorem keys_mapStore_absent (M : List (Nat × GMTicket)) (k : Nat)
    (v : GMTicket) (h : mapFind M k = none) :
    (mapStore M k v).map Prod.fst = M.map Prod.fst ++ [k] := by
  induction M with
  | nil => simp [mapStore]
  | cons p rest ih =>
    obtain ⟨k0, v0⟩ := p
    by_cases h0 : k0 = k
    · subst h0; simp at h
    · simp [h0] at h
      simp [mapStore, h0, ih h]

theorem keys_mapStore_present (M : List (Nat × GMTicket)) (k : Nat)
    (v t : GMTicket) (h : mapFind M k = some t) :
    (mapStore M k v).map Prod.fst = M.map Prod.fst := by
  induction M with
  | nil => simp at h
  | cons p rest ih =>
    obtain ⟨k0, v0⟩ := p
    by_cases h0 : k0 = k
    · subst h0; simp [mapStore]
    · simp [h0] at h
      simp [mapStore, h0, ih h]

theorem keys_mapErase (M : List (Nat × GMTicket)) (k : Nat) :
    (mapErase M k).map Prod.fst = (M.map Prod.fst).erase k := by
  induction M with
  | nil => simp [mapErase]
  | cons p rest ih =>
    obtain ⟨k0, v0⟩ := p
    by_cases h0 : k0 = k
    · subst h0; simp [mapErase, List.erase_cons]
    · simp [mapErase, h0, ih, List.erase_cons]

theorem mapFind_mapErase (M : List (Nat × GMTicket)) (k : Nat)
    (hnd : (M.map Prod.fst).Nodup) (g : Nat) :
    mapFind (mapErase M k) g = if g = k then none else mapFind M g := by
  induction M with
  | nil => simp [mapErase]
  | cons p rest ih =>
    obtain ⟨k0, v0⟩ := p
    simp only [List.map_cons, List.nodup_cons] at hnd
    obtain ⟨hk0, hrest⟩ := hnd
    by_cases h0 : k0 = k
    · subst h0
      by_cases hg : g = k0
      · subst hg
        simp [mapErase, (mapFind_eq_none_iff rest g).mpr hk0]
      · have h2 : k0 ≠ g := fun hh => hg hh.symm
        simp [mapErase, hg, h2]
    · by_cases hg : g = k
      · subst hg
        have h2 : k0 ≠ g := h0
        simp [mapErase, h0, h2, ih hrest]
      · simp [mapErase, h0, hg, ih hrest]

theorem length_mapErase_present (M : List (Nat × GMTicket)) (k : Nat)
    (t : GMTicket) (h : mapFind M k = some t) :
    (mapErase M k).length + 1 = M.length := by
  induction M with
  | nil => simp at h
  | cons p rest ih =>
    obtain ⟨k0, v0⟩ := p
    by_cases h0 : k0 = k
    · subst h0; simp [mapErase]
    · simp [h0] at h
      simp [mapErase, h0, ih h]

theorem length_filter_ne_of_nodup (l : List Nat) (a : Nat) (hnd : l.Nodup)
    (hm : a ∈ l) :
    (l.filter (fun g => g ≠ a)).length + 1 = l.length := by
  induction l with
  | nil => cases hm
  | cons b rest ih =>
    rw [List.nodup_cons] at hnd
    obtain ⟨hb, hrest⟩ := hnd
    by_cases h0 : b = a
    · subst h0
      have hfr : rest.filter (fun g => decide (g ≠ b)) = rest :=
        List.filter_eq_self.mpr fun x hx => decide_eq_true fun h => hb (h ▸ hx)
      have hstep : (b :: rest).filter (fun g => decide (g ≠ b)) =
          rest.filter (fun g => decide (g ≠ b)) :=
        List.filter_cons_of_neg (by simp)
      rw [hstep, hfr, List.length_cons]
    · have hm2 : a ∈ rest := by
        cases List.mem_cons.mp hm with
        | inl h => exact absurd h.symm h0
        | inr h => exact h
      have hstep : (b :: rest).filter (fun g => decide (g ≠ a)) =
          b :: rest.filter (fun g => decide (g ≠ a)) :=
        List.filter_cons_of_pos (decide_eq_true h0)
      rw [hstep, List.length_cons, List.length_cons, ih hrest hm2]

theorem inv_fresh : Inv GMTicketMgr.fresh := by
  refine ⟨?_, ?_, ?_, ?_, rfl⟩
  · simp [GMTicketMgr.fresh]
  · simp [GMTicketMgr.fresh]
  · intro g
    simp [GMTicketMgr.fresh]
  · intro g t h
    simp [GMTicketMgr.fresh] at h

theorem inv_create (m : GMTicketMgr) (guid : Nat) (text : String) (now : Nat)
    (hm : Inv m) (hg : guid ≠ 0) : Inv (m.Create guid text now) := by
  obtain ⟨hkn, hln, hmem, hfield, hlen⟩ := hm
  cases hfind : mapFind m.m_GMTicketMap guid with
  | none =>
    have hnk : guid ∉ m.m_GMTicketMap.map Prod.fst :=
      (mapFind_eq_none_iff _ _).mp hfind
    have hnl : guid ∉ m.m_GMTicketListByCreatingOrder := by
      intro h
      obtain ⟨t, ht⟩ := (hmem guid).mp h
      rw [hfind] at ht
      cases ht
    have hmap2 : (m.Create guid text now).m_GMTicketMap =
        mapStore m.m_GMTicketMap guid
          { m_guid := guid, m_text := text, m_responseText := "",
            m_lastUpdate := now } := by
      simp [GMTicketMgr.Create, hfind, GMTicket.Init, GMTicket.empty]
    have hlist2 : (m.Create guid text now).m_GMTicketListByCreatingOrder =
        m.m_GMTicketListByCreatingOrder ++ [guid] := by
      simp [GMTicketMgr.Create, hfind, GMTicket.empty]
    have hkeys2 := keys_mapStore_absent m.m_GMTicketMap guid
      { m_guid := guid, m_text := text, m_responseText := "",
        m_lastUpdate := now } hfind
    refine ⟨?_, ?_, ?_, ?_, ?_⟩
    · rw [hmap2, hkeys2]
      simp [List.nodup_append, hkn, hnk]
    · rw [hlist2]
      simp [List.nodup_append, hln, hnl]
    · intro g
      rw [hmap2, hlist2, mapFind_mapStore]
      by_cases hgg : guid = g
      · subst hgg
        simp
      · have hgg2 : g ≠ guid := fun h => hgg h.symm
        simp [hgg, hgg2, hmem g]
    · intro g t ht
      rw [hmap2, mapFind_mapStore] at ht
      by_cases hgg : guid = g
      · rw [if_pos hgg] at ht
        cases ht
        exact ⟨hgg, hgg ▸ hg⟩
      · rw [if_neg hgg] at ht
        exact hfield g t ht
    · rw [hmap2, hlist2]
      have h2 := congrArg List.length hkeys2
      simp only [List.length_map, List.length_append, List.length_singleton]
        at h2
      simp only [List.length_append, List.length_singleton]
      omega
  | some t0 =>
    obtain ⟨hfg, hg0⟩ := hfield guid t0 hfind
    have hml : guid ∈ m.m_GMTicketListByCreatingOrder :=
      (hmem guid).mpr ⟨t0, hfind⟩
    have hmap2 : (m.Create guid text now).m_GMTicketMap =
        mapStore m.m_GMTicketMap guid
          { m_guid := guid, m_text := text, m_responseText := "",
            m_lastUpdate := now } := by
      simp [GMTicketMgr.Create, hfind, GMTicket.Init, hfg, hg0]
    have hlist2 : (m.Create guid text now).m_GMTicketListByCreatingOrder =
        m.m_GMTicketListByCreatingOrder.filter (fun g => g ≠ guid) ++
          [guid] := by
      simp [GMTicketMgr.Create, hfind, hfg, hg0]
    have hkeys2 := keys_mapStore_present m.m_GMTicketMap guid
      { m_guid := guid, m_text := text, m_responseText := "",
        m_lastUpdate := now } t0 hfind
    have hnfl : guid ∉
        m.m_GMTicketListByCreatingOrder.filter (fun g => g ≠ guid) := by
      intro h
      have := (List.mem_filter.mp h).2
      simp at this
    refine ⟨?_, ?_, ?_, ?_, ?_⟩
    · rw [hmap2, hkeys2]
      exact hkn
    · rw [hlist2]
      simp only [List.nodup_append, List.nodup_singleton, true_and]
      refine ⟨hln.filter _, ?_⟩
      intro a ha hb
      rw [List.mem_singleton] at hb
      exact hnfl (hb ▸ ha)
    · intro g
      rw [hmap2, hlist2, mapFind_mapStore]
      by_cases hgg : guid = g
      · subst hgg
        simp
      · have hgg2 : g ≠ guid := fun h => hgg h.symm
        simp only [List.mem_append, List.mem_filter, List.mem_singleton,
          hgg2, or_false, if_neg hgg, decide_eq_true_eq, and_true]
        simp [hgg2, hmem g]
    · intro g t ht
      rw [hmap2, mapFind_mapStore] at ht
      by_cases hgg : guid = g
      · rw [if_pos hgg] at ht
        cases ht
        exact ⟨hgg, hgg ▸ hg⟩
      · rw [if_neg hgg] at ht
        exact hfield g t ht
    · rw [hmap2, hlist2]
      have h2 := congrArg List.length hkeys2
      simp only [List.length_map] at h2
      have h3 := length_filter_ne_of_nodup m.m_GMTicketListByCreatingOrder
        guid hln hml
      simp only [List.length_append, List.length_singleton]
      omega

theorem inv_delete (m : GMTicketMgr) (guid : Nat) (hm : Inv m) :
    Inv (m.Delete guid) := by
  obtain ⟨hkn, hln, hmem, hfield, hlen⟩ := hm
  cases hfind : mapFind m.m_GMTicketMap guid with
  | none =>
    have : m.Delete guid = m := by
      simp [GMTicketMgr.Delete, hfind]
    rw [this]
    exact ⟨hkn, hln, hmem, hfield, hlen⟩
  | some t0 =>
    have hml : guid ∈ m.m_GMTicketListByCreatingOrder :=
      (hmem guid).mpr ⟨t0, hfind⟩
    have hmap2 : (m.Delete guid).m_GMTicketMap =
        mapErase m.m_GMTicketMap guid := by
      simp [GMTicketMgr.Delete, hfind]
    have hlist2 : (m.Delete guid).m_GMTicketListByCreatingOrder =
        m.m_GMTicketListByCreatingOrder.filter (fun g => g ≠ guid) := by
      simp [GMTicketMgr.Delete, hfind]
    refine ⟨?_, ?_, ?_, ?_, ?_⟩
    · rw [hmap2, keys_mapErase]
      exact hkn.erase guid
    · rw [hlist2]
      exact hln.filter _
    · intro g
      rw [hmap2, hlist2, mapFind_mapErase _ _ hkn]
      by_cases hgg : g = guid
      · subst hgg
        simp
      · simp only [List.mem_filter, decide_eq_true_eq, hgg, if_neg hgg,
          and_true]
        simp [hgg, hmem g]
    · intro g t ht
      rw [hmap2, mapFind_mapErase _ _ hkn] at ht
      by_cases hgg : g = guid
      · rw [if_pos hgg] at ht
        cases ht
      · rw [if_neg hgg] at ht
        exact hfield g t ht
    · rw [hmap2, hlist2]
      have h2 := length_mapErase_present m.m_GMTicketMap guid t0 hfind
      have h3 := length_filter_ne_of_nodup m.m_GMTicketListByCreatingOrder
        guid hln hml
      omega

theorem inv_applyOp (m : GMTicketMgr) (op : TicketOp) (hm : Inv m)
    (hv : validOp op) : Inv (applyOp m op) := by
  cases op with
  | create o t n => exact inv_create m o t n hm hv
  | delete o => exact inv_delete m o hm

theorem inv_foldl (ops : List TicketOp) (m : GMTicketMgr) (hm : Inv m)
    (hv : ∀ op ∈ ops, validOp op) : Inv (ops.foldl applyOp m) := by
  induction ops generalizing m with
  | nil => exact hm
  | cons op rest ih =>
    exact ih (applyOp m op)
      (inv_applyOp m op hm (hv op (List.mem_cons_self op rest)))
      (fun o ho => hv o (List.mem_cons_of_mem op ho))

theorem inv_applyOps (ops : List TicketOp) (hv : ∀ op ∈ ops, validOp op) :
    Inv (applyOps ops) :=
  inv_foldl ops GMTicketMgr.fresh inv_fresh hv

theorem resolve_of_inv (m : GMTicketMgr) (hm : Inv m) (p : Nat)
    (hp : p < m.GetTicketCount) :
    ∃ t, m.GetGMTicketByOrderPos p = some t ∧
      m.GetGMTicket t.m_guid = some t := by
  obtain ⟨hkn, hln, hmem, hfield, hlen⟩ := hm
  have hp2 : p < m.m_GMTicketListByCreatingOrder.length := by
    have : m.GetTicketCount = m.m_GMTicketMap.length := rfl
    omega
  have hget : m.m_GMTicketListByCreatingOrder.get? p =
      some (m.m_GMTicketListByCreatingOrder.get ⟨p, hp2⟩) :=
    List.get?_eq_get hp2
  have hgmem : m.m_GMTicketListByCreatingOrder.get ⟨p, hp2⟩ ∈
      m.m_GMTicketListByCreatingOrder :=
    List.get_mem _ _ _
  obtain ⟨t, ht⟩ := (hmem _).mp hgmem
  have hfld := hfield _ t ht
  refine ⟨t, ?_, ?_⟩
  · unfold GMTicketMgr.GetGMTicketByOrderPos
    rw [if_neg (Nat.not_le.mpr hp), hget]
    exact ht
  · rw [hfld.1]
    exact ht

theorem get?_append_length (l : List Nat) (a : Nat) :
    (l ++ [a]).get? l.length = some a := by
  induction l with
  | nil => rfl
  | cons b rest ih => exact ih

theorem orderPos_some_find (m : GMTicketMgr) (p : Nat) (t : GMTicket)
    (h : m.GetGMTicketByOrderPos p = some t) :
    ∃ g, m.m_GMTicketListByCreatingOrder.get? p = some g ∧
      mapFind m.m_GMTicketMap g = some t := by
  unfold GMTicketMgr.GetGMTicketByOrderPos at h
  by_cases hc : p ≥ m.GetTicketCount
  · rw [if_pos hc] at h
    cases h
  · rw [if_neg hc] at h
    cases hg : m.m_GMTicketListByCreatingOrder.get? p with
    | none =>
      rw [hg] at h
      cases h
    | some g =>
      rw [hg] at h
      exact ⟨g, rfl, h⟩

/-- C2: two creates for the same non-empty owner starting from the fresh
registry leave a single ticket holding the second text, and the owner's
handle is the sole — hence tail — element of the creation-order list. -/
theorem create_replaces (A : Nat) (t1 t2 : String) (n1 n2 : Nat)
    (hA : A ≠ 0) :
    ((GMTicketMgr.fresh.Create A t1 n1).Create A t2 n2).GetTicketCount = 1 ∧
    ((GMTicketMgr.fresh.Create A t1 n1).Create A t2 n2).GetGMTicket A = some { m_guid := A, m_text := t2, m_responseText := "", m_lastUpdate := n2 } ∧
    ((GMTicketMgr.fresh.Create A t1 n1).Create A t2 n2).m_GMTicketListByCreatingOrder = [A] := by
  refine ⟨?_, ?_, ?_⟩ <;>
    simp [GMTicketMgr.Create, GMTicketMgr.fresh, GMTicket.empty,
      GMTicket.Init, GMTicketMgr.GetGMTicket, GMTicketMgr.GetTicketCount,
      mapStore, mapFind, hA]

/-- Witness for C2: the S1/S2 scenario, owner 42 first asking "help stuck"
at t=1000 and then "still stuck" at t=1010. -/
theorem create_replaces_witness :
    ((GMTicketMgr.fresh.Create 42 "help stuck" 1000).Create 42 "still stuck" 1010).GetTicketCount = 1 ∧
    ((GMTicketMgr.fresh.Create 42 "help stuck" 1000).Create 42 "still stuck" 1010).GetGMTicket 42 = some { m_guid := 42, m_text := "still stuck", m_responseText := "", m_lastUpdate := 1010 } ∧
    ((GMTicketMgr.fresh.Create 42 "help stuck" 1000).Create 42 "still stuck" 1010).m_GMTicketListByCreatingOrder = [42] :=
  create_replaces 42 "help stuck" "still stuck" 1000 1010 (by decide)

/-- C5: three creates for pairwise distinct non-empty owners starting from
the fresh registry put their tickets at order positions 0, 1 and 2
respectively. -/
theorem insertion_order_three (A B C : Nat) (tA tB tC : String)
    (nA nB nC : Nat) (hA : A ≠ 0) (hB : B ≠ 0) (hC : C ≠ 0)
    (hAB : A ≠ B) (hAC : A ≠ C) (hBC : B ≠ C) :
    (((GMTicketMgr.fresh.Create A tA nA).Create B tB nB).Create C tC nC).GetGMTicketByOrderPos 0 = some { m_guid := A, m_text := tA, m_responseText := "", m_lastUpdate := nA } ∧
    (((GMTicketMgr.fresh.Create A tA nA).Create B tB nB).Create C tC nC).GetGMTicketByOrderPos 1 = some { m_guid := B, m_text := tB, m_responseText := "", m_lastUpdate := nB } ∧
    (((GMTicketMgr.fresh.Create A tA nA).Create B tB nB).Create C tC nC).GetGMTicketByOrderPos 2 = some { m_guid := C, m_text := tC, m_responseText := "", m_lastUpdate := nC } := by
  refine ⟨?_, ?_, ?_⟩ <;>
    simp [GMTicketMgr.Create, GMTicketMgr.fresh, GMTicket.empty,
      GMTicket.Init, GMTicketMgr.GetGMTicket, GMTicketMgr.GetTicketCount,
      GMTicketMgr.GetGMTicketByOrderPos, mapStore, mapFind,
      hA, hB, hC, hAB, hAC, hBC]

/-- Witness for C5: owners 1, 2, 3 with texts "a", "b", "c" at times
1, 2, 3. -/
theorem insertion_order_three_witness :
    (((GMTicketMgr.fresh.Create 1 "a" 1).Create 2 "b" 2).Create 3 "c" 3).GetGMTicketByOrderPos 0 = some { m_guid := 1, m_text := "a", m_responseText := "", m_lastUpdate := 1 } ∧
    (((GMTicketMgr.fresh.Create 1 "a" 1).Create 2 "b" 2).Create 3 "c" 3).GetGMTicketByOrderPos 1 = some { m_guid := 2, m_text := "b", m_responseText := "", m_lastUpdate := 2 } ∧
    (((GMTicketMgr.fresh.Create 1 "a" 1).Create 2 "b" 2).Create 3 "c" 3).GetGMTicketByOrderPos 2 = some { m_guid := 3, m_text := "c", m_responseText := "", m_lastUpdate := 3 } :=
  insertion_order_three 1 2 3 "a" "b" "c" 1 2 3 (by decide) (by decide)
    (by decide) (by decide) (by decide) (by decide)

/-- C7: a create with the empty guid (0) default-inserts a map slot whose
stored guid stays empty, so the replacement guard
`if (ticket.GetPlayerGuid())` never fires for it: a second create with the
empty guid reuses the slot without removing its existing handle, leaving one
by-owner entry but two by-order handles — the index-size equality thus
depends on creates carrying non-empty owners. -/
theorem empty_owner_breaks_index (t1 t2 : String) (n1 n2 : Nat) :
    ((GMTicketMgr.fresh.Create 0 t1 n1).Create 0 t2 n2).m_GMTicketMap = [(0, { m_guid := 0, m_text := t2, m_responseText := "", m_lastUpdate := n2 })] ∧
    ((GMTicketMgr.fresh.Create 0 t1 n1).Create 0 t2 n2).m_GMTicketListByCreatingOrder = [0, 0] ∧
    ((GMTicketMgr.fresh.Create 0 t1 n1).Create 0 t2 n2).GetTicketCount ≠ ((GMTicketMgr.fresh.Create 0 t1 n1).Create 0 t2 n2).m_GMTicketListByCreatingOrder.length := by
  refine ⟨?_, ?_, ?_⟩ <;>
    simp [GMTicketMgr.Create, GMTicketMgr.fresh, GMTicket.empty,
      GMTicket.Init, GMTicketMgr.GetTicketCount, mapStore, mapFind]

/-- C8: Create never reads the accept flag — on two registries sharing map
and order list but differing arbitrarily in the flag, the same create
produces the same map and the same order list, and the flag survives each
run unchanged. -/
theorem create_ignores_flag (b1 b2 : Bool) (M : List (Nat × GMTicket))
    (L : List Nat) (owner : Nat) (text : String) (now : Nat) :
    ((GMTicketMgr.mk b1 M L).Create owner text now).m_GMTicketMap = ((GMTicketMgr.mk b2 M L).Create owner text now).m_GMTicketMap ∧
    ((GMTicketMgr.mk b1 M L).Create owner text now).m_GMTicketListByCreatingOrder = ((GMTicketMgr.mk b2 M L).Create owner text now).m_GMTicketListByCreatingOrder ∧
    ((GMTicketMgr.mk b1 M L).Create owner text now).m_TicketSystemOn = b1 ∧
    ((GMTicketMgr.mk b2 M L).Create owner text now).m_TicketSystemOn = b2 :=
  ⟨rfl, rfl, rfl, rfl⟩

/-- C9: SetAcceptTickets is a pure frame on everything but the flag — the
by-owner map (and with it every stored ticket) and the creation-order list
are untouched, and WillAcceptTickets afterwards reads back the flag set. -/
theorem set_accept_frame (m : GMTicketMgr) (b : Bool) :
    (m.SetAcceptTickets b).m_GMTicketMap = m.m_GMTicketMap ∧
    (m.SetAcceptTickets b).m_GMTicketListByCreatingOrder = m.m_GMTicketListByCreatingOrder ∧
    (m.SetAcceptTickets b).WillAcceptTickets = b :=
  ⟨rfl, rfl, rfl⟩

/-- C10: HasResponse returns true exactly when the response string is
non-empty. -/
theorem hasResponse_iff (t : GMTicket) :
    t.HasResponse = true ↔ t.m_responseText ≠ "" := by
  simp only [GMTicket.HasResponse, Bool.not_eq_true']
  constructor
  · intro h he
    have h2 := (String.isEmpty_iff t.m_responseText).mpr he
    rw [h] at h2
    cases h2
  · intro h
    cases hB : t.m_responseText.isEmpty
    · rfl
    · exact absurd ((String.isEmpty_iff t.m_responseText).mp hB) h

/-- C1: in any well-formed registry state where the non-empty owner has no
ticket yet, a create for that owner at wall-clock time `t` increments the
count by one, makes the by-owner lookup return a ticket with exactly the
given text, an empty response and last update `t`, and appends the owner's
handle at the tail: the handle at position `count - 1` of the creation-order
list resolves to the new ticket. -/
theorem create_fresh_appends (m : GMTicketMgr) (owner : Nat) (text : String)
    (t : Nat) (hm : Inv m) (howner : owner ≠ 0)
    (habs : m.GetGMTicket owner = none) :
    (m.Create owner text t).GetTicketCount = m.GetTicketCount + 1 ∧
    (m.Create owner text t).GetGMTicket owner = some { m_guid := owner, m_text := text, m_responseText := "", m_lastUpdate := t } ∧
    (m.Create owner text t).GetGMTicketByOrderPos ((m.Create owner text t).GetTicketCount - 1) = some { m_guid := owner, m_text := text, m_responseText := "", m_lastUpdate := t } := by
  obtain ⟨hkn, hln, hmem, hfield, hlen⟩ := hm
  have hfind : mapFind m.m_GMTicketMap owner = none := habs
  have hmap2 : (m.Create owner text t).m_GMTicketMap = mapStore m.m_GMTicketMap owner { m_guid := owner, m_text := text, m_responseText := "", m_lastUpdate := t } := by
    simp [GMTicketMgr.Create, hfind, GMTicket.Init, GMTicket.empty]
  have hlist2 : (m.Create owner text t).m_GMTicketListByCreatingOrder = m.m_GMTicketListByCreatingOrder ++ [owner] := by
    simp [GMTicketMgr.Create, hfind, GMTicket.empty]
  have hkeys2 := keys_mapStore_absent m.m_GMTicketMap owner
    { m_guid := owner, m_text := text, m_responseText := "",
      m_lastUpdate := t } hfind
  have hlen2 : (m.Create owner text t).m_GMTicketMap.length = m.m_GMTicketMap.length + 1 := by
    rw [hmap2]
    have h2 := congrArg List.length hkeys2
    simp only [List.length_map, List.length_append,
      List.length_singleton] at h2
    omega
  have hcnt : (m.Create owner text t).GetTicketCount = m.m_GMTicketMap.length + 1 := hlen2
  have hc2 : (m.Create owner text t).GetGMTicket owner = some { m_guid := owner, m_text := text, m_responseText := "", m_lastUpdate := t } := by
    show mapFind (m.Create owner text t).m_GMTicketMap owner = _
    rw [hmap2, mapFind_mapStore, if_pos rfl]
  refine ⟨hlen2, hc2, ?_⟩
  have hget : (m.Create owner text t).m_GMTicketListByCreatingOrder.get? m.m_GMTicketMap.length = some owner := by
    rw [hlist2, ← hlen]
    exact get?_append_length _ _
  rw [hcnt, Nat.add_sub_cancel]
  unfold GMTicketMgr.GetGMTicketByOrderPos
  rw [if_neg (by omega), hget]
  exact hc2

/-- Witness for C1: the S1 scenario — owner 42 asking "help stuck" at
t=1000 on the fresh registry. -/
theorem create_fresh_appends_witness :
    (GMTicketMgr.fresh.Create 42 "help stuck" 1000).GetTicketCount = GMTicketMgr.fresh.GetTicketCount + 1 ∧
    (GMTicketMgr.fresh.Create 42 "help stuck" 1000).GetGMTicket 42 = some { m_guid := 42, m_text := "help stuck", m_responseText := "", m_lastUpdate := 1000 } ∧
    (GMTicketMgr.fresh.Create 42 "help stuck" 1000).GetGMTicketByOrderPos ((GMTicketMgr.fresh.Create 42 "help stuck" 1000).GetTicketCount - 1) = some { m_guid := 42, m_text := "help stuck", m_responseText := "", m_lastUpdate := 1000 } :=
  create_fresh_appends GMTicketMgr.fresh 42 "help stuck" 1000 inv_fresh
    (by decide) rfl

/-- C4: deleting an owner that holds a ticket in a well-formed state makes
the by-owner lookup return none, lets no order position resolve to that
owner any more, decrements the count by one, and leaves the creation-order
list exactly filtered of that owner's handle, preserving the relative order
of the remaining handles. -/
theorem delete_removes (m : GMTicketMgr) (A : Nat) (tk : GMTicket)
    (hm : Inv m) (hex : m.GetGMTicket A = some tk) :
    (m.Delete A).GetGMTicket A = none ∧
    (∀ p u, (m.Delete A).GetGMTicketByOrderPos p = some u → u.m_guid ≠ A) ∧
    (m.Delete A).GetTicketCount + 1 = m.GetTicketCount ∧
    (m.Delete A).m_GMTicketListByCreatingOrder = m.m_GMTicketListByCreatingOrder.filter (fun g => g ≠ A) := by
  obtain ⟨hkn, hln, hmem, hfield, hlen⟩ := hm
  have hfind : mapFind m.m_GMTicketMap A = some tk := hex
  have hmap2 : (m.Delete A).m_GMTicketMap = mapErase m.m_GMTicketMap A := by
    simp [GMTicketMgr.Delete, hfind]
  have hlist2 : (m.Delete A).m_GMTicketListByCreatingOrder = m.m_GMTicketListByCreatingOrder.filter (fun g => g ≠ A) := by
    simp [GMTicketMgr.Delete, hfind]
  refine ⟨?_, ?_, ?_, hlist2⟩
  · show mapFind (m.Delete A).m_GMTicketMap A = none
    rw [hmap2, mapFind_mapErase _ _ hkn, if_pos rfl]
  · intro p u hu
    obtain ⟨g, hg, hfindg⟩ := orderPos_some_find (m.Delete A) p u hu
    rw [hmap2, mapFind_mapErase _ _ hkn] at hfindg
    by_cases hgA : g = A
    · rw [if_pos hgA] at hfindg
      cases hfindg
    · rw [if_neg hgA] at hfindg
      have hf := hfield g u hfindg
      intro hcontra
      exact hgA (by rw [← hf.1, hcontra])
  · show (m.Delete A).m_GMTicketMap.length + 1 = m.m_GMTicketMap.length
    rw [hmap2]
    exact length_mapErase_present m.m_GMTicketMap A tk hfind

/-- Witness for C4: deleting owner 42 from the one-ticket registry built by
creating a ticket for 42 on the fresh registry. -/
theorem delete_removes_witness :
    ((GMTicketMgr.fresh.Create 42 "help stuck" 1000).Delete 42).GetGMTicket 42 = none ∧
    (∀ p u, ((GMTicketMgr.fresh.Create 42 "help stuck" 1000).Delete 42).GetGMTicketByOrderPos p = some u → u.m_guid ≠ 42) ∧
    ((GMTicketMgr.fresh.Create 42 "help stuck" 1000).Delete 42).GetTicketCount + 1 = (GMTicketMgr.fresh.Create 42 "help stuck" 1000).GetTicketCount ∧
    ((GMTicketMgr.fresh.Create 42 "help stuck" 1000).Delete 42).m_GMTicketListByCreatingOrder = (GMTicketMgr.fresh.Create 42 "help stuck" 1000).m_GMTicketListByCreatingOrder.filter (fun g => g ≠ 42) :=
  delete_removes (GMTicketMgr.fresh.Create 42 "help stuck" 1000) 42
    { m_guid := 42, m_text := "help stuck", m_responseText := "",
      m_lastUpdate := 1000 }
    (inv_create GMTicketMgr.fresh 42 "help stuck" 1000 inv_fresh (by decide))
    rfl

/-- C6: in any well-formed registry state, the by-owner lookup returns none
exactly when the owner is not a key of the by-owner map and otherwise a
handle to that owner's own ticket, and the by-position lookup returns none
exactly when the position is not below the count and otherwise the handle
stored at that offset of the creation-order list; both lookups are total
functions into an option type, so neither can fail with an error. -/
theorem lookup_semantics (m : GMTicketMgr) (hm : Inv m) (owner : Nat)
    (pos : Nat) :
    (m.GetGMTicket owner = none ↔ owner ∉ m.m_GMTicketMap.map Prod.fst) ∧
    (∀ u, m.GetGMTicket owner = some u → u.m_guid = owner) ∧
    (m.GetGMTicketByOrderPos pos = none ↔ m.GetTicketCount ≤ pos) ∧
    (∀ u, m.GetGMTicketByOrderPos pos = some u → m.m_GMTicketListByCreatingOrder.get? pos = some u.m_guid ∧ m.GetGMTicket u.m_guid = some u) := by
  obtain ⟨hkn, hln, hmem, hfield, hlen⟩ := hm
  refine ⟨mapFind_eq_none_iff _ _, ?_, ?_, ?_⟩
  · intro u hu
    exact (hfield owner u hu).1
  · constructor
    · intro h
      by_contra hc
      have hlt : pos < m.GetTicketCount := Nat.not_le.mp hc
      obtain ⟨u, hu, _⟩ :=
        resolve_of_inv m ⟨hkn, hln, hmem, hfield, hlen⟩ pos hlt
      rw [h] at hu
      cases hu
    · intro h
      unfold GMTicketMgr.GetGMTicketByOrderPos
      rw [if_pos h]
  · intro u hu
    obtain ⟨g, hg, hfindg⟩ := orderPos_some_find m pos u hu
    have hf := hfield g u hfindg
    constructor
    · rw [hf.1]
      exact hg
    · show mapFind m.m_GMTicketMap u.m_guid = some u
      rw [hf.1]
      exact hfindg

/-- Witness for C6: the one-ticket registry holding owner 42, queried for
owner 42 at position 0. -/
theorem lookup_semantics_witness :
    ((GMTicketMgr.fresh.Create 42 "help stuck" 1000).GetGMTicket 42 = none ↔ 42 ∉ (GMTicketMgr.fresh.Create 42 "help stuck" 1000).m_GMTicketMap.map Prod.fst) ∧
    (∀ u, (GMTicketMgr.fresh.Create 42 "help stuck" 1000).GetGMTicket 42 = some u → u.m_guid = 42) ∧
    ((GMTicketMgr.fresh.Create 42 "help stuck" 1000).GetGMTicketByOrderPos 0 = none ↔ (GMTicketMgr.fresh.Create 42 "help stuck" 1000).GetTicketCount ≤ 0) ∧
    (∀ u, (GMTicketMgr.fresh.Create 42 "help stuck" 1000).GetGMTicketByOrderPos 0 = some u → (GMTicketMgr.fresh.Create 42 "help stuck" 1000).m_GMTicketListByCreatingOrder.get? 0 = some u.m_guid ∧ (GMTicketMgr.fresh.Create 42 "help stuck" 1000).GetGMTicket u.m_guid = some u) :=
  lookup_semantics (GMTicketMgr.fresh.Create 42 "help stuck" 1000)
    (inv_create GMTicketMgr.fresh 42 "help stuck" 1000 inv_fresh (by decide))
    42 0

/-- C3 counterexample: the claim quantifies over arbitrary create/delete
sequences, but two creates with the empty owner (guid 0) leave one by-owner
entry yet two by-order handles, so the count differs from the length of the
creation-order list. -/
theorem index_consistency_counterexample :
    (applyOps [TicketOp.create 0 "a" 1, TicketOp.create 0 "b" 2]).GetTicketCount ≠ (applyOps [TicketOp.create 0 "a" 1, TicketOp.create 0 "b" 2]).m_GMTicketListByCreatingOrder.length ∧
    (applyOps [TicketOp.create 0 "a" 1, TicketOp.create 0 "b" 2]).GetTicketCount = 1 ∧
    (applyOps [TicketOp.create 0 "a" 1, TicketOp.create 0 "b" 2]).m_GMTicketListByCreatingOrder.length = 2 :=
  ⟨by decide, rfl, rfl⟩

/-- C3 (amended): after any sequence of create and delete operations whose
creates all carry a non-empty owner, starting from the fresh registry, the
count equals the length of the creation-order list and the size of the
by-owner map, and every position below the count resolves to a ticket whose
owner is a key of the by-owner map. -/
theorem index_consistency (ops : List TicketOp)
    (hv : ∀ op ∈ ops, validOp op) :
    (applyOps ops).GetTicketCount = (applyOps ops).m_GMTicketListByCreatingOrder.length ∧
    (applyOps ops).GetTicketCount = (applyOps ops).m_GMTicketMap.length ∧
    (∀ p, p < (applyOps ops).GetTicketCount → ∃ u, (applyOps ops).GetGMTicketByOrderPos p = some u ∧ u.m_guid ∈ (applyOps ops).m_GMTicketMap.map Prod.fst) := by
  have hinv := inv_applyOps ops hv
  obtain ⟨hkn, hln, hmem, hfield, hlen⟩ := hinv
  refine ⟨hlen.symm, rfl, ?_⟩
  intro p hp
  obtain ⟨u, h1, h2⟩ :=
    resolve_of_inv (applyOps ops) ⟨hkn, hln, hmem, hfield, hlen⟩ p hp
  exact ⟨u, h1, (exists_mapFind_iff _ _).mp ⟨u, h2⟩⟩

/-- Witness for C3 (amended): the S3 scenario — create owners 1, 2, 3 and
then delete owner 2. -/
theorem index_consistency_witness :
    (applyOps [TicketOp.create 1 "a" 1, TicketOp.create 2 "b" 2, TicketOp.create 3 "c" 3, TicketOp.delete 2]).GetTicketCount = (applyOps [TicketOp.create 1 "a" 1, TicketOp.create 2 "b" 2, TicketOp.create 3 "c" 3, TicketOp.delete 2]).m_GMTicketListByCreatingOrder.length ∧
    (applyOps [TicketOp.create 1 "a" 1, TicketOp.create 2 "b" 2, TicketOp.create 3 "c" 3, TicketOp.delete 2]).GetTicketCount = (applyOps [TicketOp.create 1 "a" 1, TicketOp.create 2 "b" 2, TicketOp.create 3 "c" 3, TicketOp.delete 2]).m_GMTicketMap.length ∧
    (∀ p, p < (applyOps [TicketOp.create 1 "a" 1, TicketOp.create 2 "b" 2, TicketOp.create 3 "c" 3, TicketOp.delete 2]).GetTicketCount → ∃ u, (applyOps [TicketOp.create 1 "a" 1, TicketOp.create 2 "b" 2, TicketOp.create 3 "c" 3, TicketOp.delete 2]).GetGMTicketByOrderPos p = some u ∧ u.m_guid ∈ (applyOps [TicketOp.create 1 "a" 1, TicketOp.create 2 "b" 2, TicketOp.create 3 "c" 3, TicketOp.delete 2]).m_GMTicketMap.map Prod.fst) :=
  index_consistency
    [TicketOp.create 1 "a" 1, TicketOp.create 2 "b" 2,
      TicketOp.create 3 "c" 3, TicketOp.delete 2]
    (by
      intro op hop
      simp only [List.mem_cons, List.not_mem_nil, or_false] at hop
      rcases hop with h | h | h | h <;> subst h <;> simp [validOp])

end GMTicketSpec
